import Mathlib

/-!
Verification development for the `CadastroComponent` of the ControleGarantias
repository (`src/app/produto/cadastro/cadastro.component.ts`).

The component is shallowly embedded: form values are an association list from
control names to JavaScript values, the validators and the derived-field
calculation are pure Lean functions translated from the TypeScript source, and
the asynchronous service calls are modelled by passing the environment's
response as an explicit argument and collecting the emitted calls and UI
effects in lists.

JavaScript platform primitives used by the source (`Number(...)`,
`new Date(...)`, `Date.prototype.setMonth`, string/number coercion of `+`)
are modelled after ECMA-262:
* `Number(string)` follows the StringNumericLiteral grammar (whitespace
  trimming, empty string ↦ 0, signed decimal with fraction and exponent,
  `Infinity`, unsigned hex/octal/binary literals).  Finite values are kept as
  exact rationals; IEEE-754 rounding and overflow of huge literals to
  infinity are not modelled — this does not affect any NaN-classification,
  which is all `isNaN` observes.
* `new Date(string)` follows the ECMA-262 date-only ISO formats
  (`YYYY`, `YYYY-MM`, `YYYY-MM-DD` with real calendar-day validation).
  Implementation-defined fallback parsing of non-ISO strings is treated as
  producing an invalid date.  Times are ignored and the local timezone is
  taken to be UTC, so `getMonth` reads the parsed calendar month directly.
-/

/-- A JavaScript number: NaN, a signed infinity, or a finite value
(modelled as an exact rational). -/
inductive JSNum where
  | nan : JSNum
  | inf (neg : Bool) : JSNum
  | fin (q : ℚ) : JSNum
deriving DecidableEq, Repr

/-- `isNaN v` — the JavaScript `isNaN` test on an already-converted number. -/
def JSNum.isNaN : JSNum → Bool
  | .nan => true
  | _ => false

/-- `Number.isFinite` / mathematical finiteness of a JavaScript number. -/
def JSNum.isFinite : JSNum → Bool
  | .fin _ => true
  | _ => false

/-- ECMA-262 StrWhiteSpace characters (common subset). -/
def isJSWhitespace (c : Char) : Bool :=
  c = ' ' ∨ c = '\t' ∨ c = '\n' ∨ c = '\r'

/-- Strip leading and trailing JavaScript whitespace. -/
def trimJSWhitespace (l : List Char) : List Char :=
  ((l.dropWhile isJSWhitespace).reverse.dropWhile isJSWhitespace).reverse

/-- Value of a decimal digit list, most significant first. -/
def digitsToNat (l : List Char) : Nat :=
  l.foldl (fun a c => 10 * a + (c.toNat - 48)) 0

/-- Value of a digit character in radix `r` (supports 0-9, a-f, A-F). -/
def radixVal (r : Nat) (c : Char) : Option Nat :=
  let v : Option Nat :=
    if '0' ≤ c ∧ c ≤ '9' then some (c.toNat - 48)
    else if 'a' ≤ c ∧ c ≤ 'f' then some (c.toNat - 87)
    else if 'A' ≤ c ∧ c ≤ 'F' then some (c.toNat - 55)
    else none
  match v with
  | some n => if n < r then some n else none
  | none => none

/-- Parse a non-empty radix-`r` digit string; `none` on any invalid digit. -/
def parseRadixNat (r : Nat) (l : List Char) : Option Nat :=
  l.foldl
    (fun acc c =>
      match acc, radixVal r c with
      | some a, some d => some (r * a + d)
      | _, _ => none)
    (if l = [] then none else some 0)

/-- Exact power of ten with an integer exponent. -/
def pow10 (e : ℤ) : ℚ :=
  if 0 ≤ e then ((10 : ℚ) ^ e.toNat) else 1 / ((10 : ℚ) ^ (-e).toNat)

/-- Parse the mantissa of a StrUnsignedDecimalLiteral:
`Digits`, `Digits . Digits?`, or `. Digits` (whole input, no exponent). -/
def parseMantissa (l : List Char) : Option ℚ :=
  let ip := l.takeWhile Char.isDigit
  let rest := l.dropWhile Char.isDigit
  match rest with
  | [] => if ip = [] then none else some (digitsToNat ip)
  | '.' :: rest2 =>
      let fp := rest2.takeWhile Char.isDigit
      let rest3 := rest2.dropWhile Char.isDigit
      if rest3 = [] then
        if ip = [] ∧ fp = [] then none
        else some ((digitsToNat ip : ℚ) + (digitsToNat fp : ℚ) / ((10 : ℚ) ^ fp.length))
      else none
  | _ => none

/-- Parse a SignedInteger exponent part (the digits after `e`/`E`). -/
def parseExponent (l : List Char) : Option ℤ :=
  match l with
  | '+' :: r =>
      if r ≠ [] ∧ r.all Char.isDigit then some (digitsToNat r : ℤ) else none
  | '-' :: r =>
      if r ≠ [] ∧ r.all Char.isDigit then some (-(digitsToNat r : ℤ)) else none
  | r =>
      if r ≠ [] ∧ r.all Char.isDigit then some (digitsToNat r : ℤ) else none

/-- Parse a StrUnsignedDecimalLiteral with optional exponent (whole input). -/
def parseSciDecimal (l : List Char) : Option ℚ :=
  let m := l.takeWhile (fun c => c ≠ 'e' ∧ c ≠ 'E')
  let rest := l.dropWhile (fun c => c ≠ 'e' ∧ c ≠ 'E')
  match rest with
  | [] => parseMantissa m
  | _ :: expPart =>
      match parseMantissa m, parseExponent expPart with
      | some q, some e => some (q * pow10 e)
      | _, _ => none

/-- Parse a NonDecimalIntegerLiteral: `0x`/`0X`, `0o`/`0O`, `0b`/`0B`
followed by at least one digit of that radix.  No sign is allowed. -/
def parseNonDecimal (l : List Char) : Option ℚ :=
  match l with
  | '0' :: c :: rest =>
      let r : Option Nat :=
        if c = 'x' ∨ c = 'X' then some 16
        else if c = 'o' ∨ c = 'O' then some 8
        else if c = 'b' ∨ c = 'B' then some 2
        else none
      match r with
      | some radix =>
          match parseRadixNat radix rest with
          | some n => some (n : ℚ)
          | none => none
      | none => none
  | _ => none

/-- The JavaScript `Number(string)` conversion (ECMA-262 ToNumber on strings).
The whitespace-trimmed empty string converts to `0`; `Infinity` with an
optional sign is infinite; otherwise a decimal or non-decimal numeric literal,
and anything else is NaN. -/
def jsStringToNumber (s : String) : JSNum :=
  let l := trimJSWhitespace s.toList
  if l = [] then .fin 0
  else
    match parseNonDecimal l with
    | some q => .fin q
    | none =>
        let signBody : Bool × List Char :=
          match l with
          | '-' :: r => (true, r)
          | '+' :: r => (false, r)
          | r => (false, r)
        let neg := signBody.1
        let body := signBody.2
        if body = "Infinity".toList then .inf neg
        else
          match parseSciDecimal body with
          | some q => .fin (if neg then -q else q)
          | none => .nan

/-- A calendar date as JavaScript `Date` exposes it: `year`, zero-based
`month` (0 = January, matching `getMonth`), and one-based `day`. -/
structure CivilDate where
  year : ℤ
  month : ℤ
  day : ℤ
deriving DecidableEq, Repr

/-- Gregorian leap-year test. -/
def isLeapYear (y : ℤ) : Bool :=
  y.emod 4 = 0 ∧ (y.emod 100 ≠ 0 ∨ y.emod 400 = 0)

/-- Number of days in zero-based month `m` of year `y`. -/
def daysInMonth (y m : ℤ) : ℤ :=
  if m = 1 then (if isLeapYear y then 29 else 28)
  else if m = 3 ∨ m = 5 ∨ m = 8 ∨ m = 10 then 30
  else 31

/-- Civil date from a count of days since the Unix epoch (1970-01-01). -/
def civilFromDays (z : ℤ) : CivilDate :=
  let z' := z + 719468
  let era := z'.fdiv 146097
  let doe := z' - era * 146097
  let yoe := (doe - doe.fdiv 1460 + doe.fdiv 36524 - doe.fdiv 146096).fdiv 365
  let y := yoe + era * 400
  let doy := doe - (365 * yoe + yoe.fdiv 4 - yoe.fdiv 100)
  let mp := (5 * doy + 2).fdiv 153
  let d := doy - (153 * mp + 2).fdiv 5 + 1
  let m := mp + (if mp < 10 then 3 else -9)
  { year := y + (if m ≤ 2 then 1 else 0), month := m - 1, day := d }

/-- Days since the Unix epoch of a civil date (inverse of `civilFromDays`). -/
def daysFromCivil (c : CivilDate) : ℤ :=
  let m := c.month + 1
  let y := if m ≤ 2 then c.year - 1 else c.year
  let era := y.fdiv 400
  let yoe := y - era * 400
  let mp := (m + 9).emod 12
  let doy := (153 * mp + 2).fdiv 5 + c.day - 1
  let doe := yoe * 365 + yoe.fdiv 4 - yoe.fdiv 100 + doy
  era * 146097 + doe - 719468

/-- ECMA-262 date-only ISO parse for `new Date(string)`:
`YYYY`, `YYYY-MM`, or `YYYY-MM-DD`, with month and day range checks.
Any other string yields an invalid date (`none`). -/
def jsDateParse (s : String) : Option CivilDate :=
  match s.toList with
  | [y1, y2, y3, y4] =>
      if [y1, y2, y3, y4].all Char.isDigit then
        some { year := (digitsToNat [y1, y2, y3, y4] : ℤ), month := 0, day := 1 }
      else none
  | [y1, y2, y3, y4, '-', m1, m2] =>
      if [y1, y2, y3, y4, m1, m2].all Char.isDigit then
        let y : ℤ := (digitsToNat [y1, y2, y3, y4] : ℤ)
        let m : ℤ := (digitsToNat [m1, m2] : ℤ)
        if 1 ≤ m ∧ m ≤ 12 then some { year := y, month := m - 1, day := 1 }
        else none
      else none
  | [y1, y2, y3, y4, '-', m1, m2, '-', d1, d2] =>
      if [y1, y2, y3, y4, m1, m2, d1, d2].all Char.isDigit then
        let y : ℤ := (digitsToNat [y1, y2, y3, y4] : ℤ)
        let m : ℤ := (digitsToNat [m1, m2] : ℤ)
        let d : ℤ := (digitsToNat [d1, d2] : ℤ)
        if 1 ≤ m ∧ m ≤ 12 ∧ 1 ≤ d ∧ d ≤ daysInMonth y (m - 1) then
          some { year := y, month := m - 1, day := d }
        else none
      else none
  | _ => none

/-- A JavaScript value as it can occur in a form control of this component:
a string (text inputs, route parameters), a number (values patched in from a
fetched `Produto`), or a `Date` object (the value the derived-field
calculation produces; `none` is an Invalid Date). -/
inductive JSValue where
  | str (s : String) : JSValue
  | num (v : JSNum) : JSValue
  | date (d : Option CivilDate) : JSValue
deriving DecidableEq, Repr

/-- JavaScript truthiness of a value (`if (v)`).  The empty string, `0` and
`NaN` are falsy; every object — even an Invalid Date — is truthy. -/
def jsTruthy : JSValue → Bool
  | .str s => s ≠ ""
  | .num .nan => false
  | .num (.inf _) => true
  | .num (.fin q) => q ≠ 0
  | .date _ => true

/-- Truncation toward zero of a rational (ECMA-262 ToIntegerOrInfinity on a
finite value). -/
def ratTrunc (q : ℚ) : ℤ :=
  if 0 ≤ q then ⌊q⌋ else -⌊-q⌋

/-- `new Date(value)`: ISO parse for strings, milliseconds since the epoch
for finite numbers, Invalid Date for non-finite numbers, and a copy for an
existing `Date`. -/
def jsNewDate : JSValue → Option CivilDate
  | .str s => jsDateParse s
  | .num (.fin q) => some (civilFromDays ((ratTrunc q).fdiv 86400000))
  | .num _ => none
  | .date d => d

/-- `Date.prototype.getMonth` — the zero-based month, or NaN for an
Invalid Date.  (Timezone is taken as UTC, see the module header.) -/
def jsGetMonth : Option CivilDate → JSNum
  | none => .nan
  | some c => .fin (c.month : ℚ)

/-- `Date.prototype.setMonth m`: the month argument is truncated to an
integer (NaN or ±∞ make the date invalid), the year absorbs whole multiples
of 12, and a day-of-month beyond the target month's length rolls over into
the following month, exactly as the continuous day-number semantics of
ECMA-262 `MakeDay` prescribes (a source day is at most 31, so at most one
month of rollover can occur). -/
def jsSetMonth (d : Option CivilDate) (arg : JSNum) : Option CivilDate :=
  match d, arg with
  | some c, .fin q =>
      let m := ratTrunc q
      let y1 := c.year + m.fdiv 12
      let m1 := m.emod 12
      let dim := daysInMonth y1 m1
      if c.day ≤ dim then some { year := y1, month := m1, day := c.day }
      else if m1 = 11 then some { year := y1 + 1, month := 0, day := c.day - dim }
      else some { year := y1, month := m1 + 1, day := c.day - dim }
  | _, _ => none

/-- ECMA-262 ToString of a number, for the cases arising here (`getMonth`
results are integers or NaN). -/
def jsNumToString : JSNum → String
  | .nan => "NaN"
  | .inf true => "-Infinity"
  | .inf false => "Infinity"
  | .fin q => if q.den = 1 then toString q.num else toString q

/-- ToNumber of a form value: strings via the numeric-literal grammar,
numbers unchanged, `Date` objects via their time value (milliseconds since
the epoch; NaN when invalid). -/
def jsToNumber : JSValue → JSNum
  | .str s => jsStringToNumber s
  | .num v => v
  | .date none => .nan
  | .date (some c) => .fin ((86400000 * daysFromCivil c : ℤ) : ℚ)

/-- JavaScript addition `m + dur` as it occurs in
`dataFimGarantia.getMonth() + duracaoMeses`, followed by the ToNumber
coercion that `setMonth` applies to its argument.  When the duration is a
number the addition is numeric; when it is a string (the usual case for a
form field) `+` is string concatenation, so the month index is concatenated
with the duration text and the result re-parsed as a number — e.g. month 5
and `"12"` give `"512"`, i.e. 512 months.  A `Date` duration concatenates
to a non-numeric string, hence NaN. -/
def jsAddDurationToMonth (m : JSNum) (dur : JSValue) : JSNum :=
  match dur with
  | .num .nan => .nan
  | .num (.inf b) =>
      match m with
      | .nan => .nan
      | .inf b' => if b = b' then .inf b else .nan
      | .fin _ => .inf b
  | .num (.fin q) =>
      match m with
      | .nan => .nan
      | .inf b => .inf b
      | .fin p => .fin (p + q)
  | .str s => jsStringToNumber (jsNumToString m ++ s)
  | .date _ => .nan

/-- A reactive form's value: an association list from control names to
values (first match wins; the control sets built here are duplicate-free). -/
abbrev FormValue : Type := List (String × JSValue)

/-- Value of control `k`, `none` when the group has no such control
(JavaScript `undefined`, which is falsy). -/
def lookupValue (form : FormValue) (k : String) : Option JSValue :=
  match form with
  | [] => none
  | (k', v) :: rest => if k' = k then some v else lookupValue rest k

/-- Angular `FormGroup.patchValue`: every key of the patch that names an
existing control updates that control; keys without a matching control are
silently ignored. -/
def patchValue (form : FormValue) (patch : FormValue) : FormValue :=
  form.map fun e =>
    match lookupValue patch e.1 with
    | some v => (e.1, v)
    | none => e

/-- JavaScript property assignment `o.k = v`: overwrite in place when the
key exists, append otherwise. -/
def setProp (o : FormValue) (k : String) (v : JSValue) : FormValue :=
  match o with
  | [] => [(k, v)]
  | (k', v') :: rest =>
      if k' = k then (k', v) :: rest else (k', v') :: setProp rest k v

/-- The named validation failures the component's validators return
(the source pairs each with a fixed human-readable message). -/
inductive ValidationError where
  | invalidNumber : ValidationError
  | invalidString : ValidationError
  | invalidDate : ValidationError
deriving DecidableEq, Repr

/-- The human-readable message carried by each validation failure. -/
def ValidationError.message : ValidationError → String
  | .invalidNumber => "Por favor, insira um número válido."
  | .invalidString => "Por favor, insira um texto válido."
  | .invalidDate => "Por favor, insira uma data válida."

/-- `numberValidator`: returns `invalidNumber` when `isNaN(Number(value))`,
no error otherwise. -/
def numberValidator (value : JSValue) : Option ValidationError :=
  if (jsToNumber value).isNaN then some .invalidNumber else none

/-- `stringValidator`: returns `invalidString` unless the value is a string. -/
def stringValidator (value : JSValue) : Option ValidationError :=
  match value with
  | .str _ => none
  | _ => some .invalidString

/-- `dateValidator`: builds `new Date(value)` and returns `invalidDate` when
`isNaN(date.getTime())` — i.e. exactly when the date is invalid. -/
def dateValidator (value : JSValue) : Option ValidationError :=
  match jsNewDate value with
  | none => some .invalidDate
  | some _ => none

/-- The control set `createForm` builds (the group `ngOnInit` installs):
controls `id`, `nome`, `dataCompra`, `duracaoGarantiaMeses`, each starting
from the empty string.  Note that this group has NO `dataFimGarantia`
control — only the group from the property initializer, which `ngOnInit`
immediately replaces, had one (disabled). -/
def createForm : FormValue :=
  [("id", .str ""), ("nome", .str ""),
   ("dataCompra", .str ""), ("duracaoGarantiaMeses", .str "")]

/-- The component state the claims observe: the current form value, the
stored `produtoId` and the `isEditing` flag. -/
structure CadastroState where
  produtoForm : FormValue
  produtoId : JSNum
  isEditing : Bool
deriving DecidableEq, Repr

/-- Component state after `ngOnInit` ran `createForm()` and before
`checkEditMode` observed a route parameter: empty controls, `produtoId = 0`,
`isEditing = false` (the property initializers). -/
def initialCadastroState : CadastroState :=
  { produtoForm := createForm, produtoId := .fin 0, isEditing := false }

/-- `calcularDataFimGarantia`: reads `dataCompra` and `duracaoGarantiaMeses`
from the form value; when both are truthy it builds a fresh `Date` from the
purchase date, advances its month by the duration
(`setMonth(getMonth() + duracaoMeses)`), and patches the result into the
form under `dataFimGarantia`; otherwise it does nothing. -/
def calcularDataFimGarantia (form : FormValue) : FormValue :=
  let dataCompra := lookupValue form "dataCompra"
  let duracaoMeses := lookupValue form "duracaoGarantiaMeses"
  match dataCompra, duracaoMeses with
  | some dc, some dm =>
      if jsTruthy dc ∧ jsTruthy dm then
        let d0 := jsNewDate dc
        let dataFimGarantia := jsSetMonth d0 (jsAddDurationToMonth (jsGetMonth d0) dm)
        patchValue form [("dataFimGarantia", JSValue.date dataFimGarantia)]
      else form
  | _, _ => form

/-- `checkEditMode`: on the single route-parameters emission, when an `id`
parameter is present (a non-empty string — URL segments matching a `:id`
route are never empty, and `if (params[...])` tests truthiness) the
component sets `isEditing`, stores `+params[...]` in `produtoId`, and
switches to the product fetch; the subscriber patches the form when the
fetched product is truthy.  Without an `id` it returns an empty observable,
so no fetch happens and the subscriber never fires.  The second component of
the result lists the ids fetched from the service. -/
def checkEditMode (st : CadastroState) (paramId : Option String)
    (svc : JSNum → Option FormValue) : CadastroState × List JSNum :=
  match paramId with
  | none => (st, [])
  | some s =>
      if s = "" then (st, [])
      else
        let pid := jsStringToNumber s
        let st1 := { st with isEditing := true, produtoId := pid }
        match svc pid with
        | some produto =>
            (if st1.isEditing then
              { st1 with produtoForm := patchValue st1.produtoForm produto }
             else st1, [pid])
        | none => (st1, [pid])

/-- The calls `onSubmit` can issue against `ProdutoService`. -/
inductive ProdutoServiceCall where
  | updateProduto (p : FormValue) : ProdutoServiceCall
  | addProduto (p : FormValue) : ProdutoServiceCall
deriving DecidableEq, Repr

/-- The UI effects `onSubmit`'s callbacks can produce. -/
inductive UIEffect where
  | consoleError : UIEffect
  | snackBarOpen (message action : String) (durationMs : ℕ) : UIEffect
  | dialogCloseAll : UIEffect
deriving DecidableEq, Repr

/-- The single service call `onSubmit` issues: it reads the form value into
`produto`; in edit mode it overwrites `produto.id` with the stored
`produtoId` and updates, otherwise it adds the form value as is. -/
def onSubmitServiceCall (st : CadastroState) : ProdutoServiceCall :=
  let produto := st.produtoForm
  if st.isEditing then
    .updateProduto (setProp produto "id" (.num st.produtoId))
  else
    .addProduto produto

/-- The UI effects of the subscription callbacks, as a function of whether
the service call succeeded: a success snack-bar plus closing every dialog on
success; a console log of the error plus an error snack-bar on failure. -/
def onSubmitEffects (st : CadastroState) (succeeded : Bool) : List UIEffect :=
  if st.isEditing then
    if succeeded then
      [.snackBarOpen "Produto atualizado com sucesso" "Fechar" 2000, .dialogCloseAll]
    else
      [.consoleError, .snackBarOpen "Erro ao atualizar o produto" "Fechar" 2000]
  else
    if succeeded then
      [.snackBarOpen "Produto cadastrado com sucesso" "Fechar" 2000, .dialogCloseAll]
    else
      [.consoleError, .snackBarOpen "Erro ao cadastrar o produto" "Fechar" 2000]

/-- One whole submission: the list of service calls issued (always exactly
one — neither callback re-invokes the service), the UI effects of the
callback selected by the outcome, and the component state afterwards (no
callback touches the form or the flags; `produto` is a fresh copy of the
form value, so mutating its `id` does not write back into the form). -/
def onSubmit (st : CadastroState) (succeeded : Bool) :
    List ProdutoServiceCall × List UIEffect × CadastroState :=
  ([onSubmitServiceCall st], onSubmitEffects st succeeded, st)

/-! ### Helper lemmas about the form model -/

theorem lookupValue_nil (k : String) : lookupValue [] k = none := rfl

theorem lookupValue_cons (k' k : String) (v : JSValue) (rest : FormValue) :
    lookupValue ((k', v) :: rest) k = if k' = k then some v else lookupValue rest k := rfl

theorem patchValue_cons (k' : String) (v : JSValue) (rest patch : FormValue) :
    patchValue ((k', v) :: rest) patch =
      (match lookupValue patch k' with
       | some w => (k', w)
       | none => (k', v)) :: patchValue rest patch := rfl

/-- Patching a single control leaves every other control's value unchanged. -/
theorem lookupValue_patchValue_ne (form : FormValue) (pk k : String) (pv : JSValue)
    (h : pk ≠ k) :
    lookupValue (patchValue form [(pk, pv)]) k = lookupValue form k := by
  induction form with
  | nil => rfl
  | cons e rest ih =>
      obtain ⟨k', v'⟩ := e
      by_cases hk : pk = k'
      · subst hk
        simp [patchValue_cons, lookupValue_cons, lookupValue_nil, h, ih]
      · simp [patchValue_cons, lookupValue_cons, lookupValue_nil, hk, ih]

/-- After `o.k = v`, reading property `k` gives `v`. -/
theorem lookupValue_setProp_self (o : FormValue) (k : String) (v : JSValue) :
    lookupValue (setProp o k v) k = some v := by
  induction o with
  | nil => simp [setProp, lookupValue_cons]
  | cons e rest ih =>
      obtain ⟨k', v'⟩ := e
      by_cases hk : k' = k
      · subst hk
        simp [setProp, lookupValue_cons]
      · simp [setProp, hk, lookupValue_cons, ih]

/-! ### Claims -/

/-- The form installed by `createForm` after the user entered a valid
purchase date and a valid duration — both inputs present and valid. -/
def demoValidForm : FormValue :=
  [("id", .str "1"), ("nome", .str "Notebook"),
   ("dataCompra", .str "2024-01-15"), ("duracaoGarantiaMeses", .str "12")]

/-- C1 (code bug): with both inputs present and valid (`dataCompra =
"2024-01-15"`, `duracaoGarantiaMeses = "12"`), the derived-field calculation
leaves the operative form completely unchanged and `dataFimGarantia` unset:
the group `createForm` builds has no `dataFimGarantia` control, so the
`patchValue` inside `calcularDataFimGarantia` is silently ignored.  The
spec's invariant expects `dataFimGarantia` to become 2025-01-15 — exactly
the value the month-advance itself produces (third conjunct), which the form
then drops. -/
theorem c1_dataFimGarantia_never_set :
    calcularDataFimGarantia demoValidForm = demoValidForm ∧
    lookupValue (calcularDataFimGarantia demoValidForm) "dataFimGarantia" = none ∧
    jsSetMonth (jsDateParse "2024-01-15") (.fin 12) =
      some { year := 2025, month := 0, day := 15 } :=
  ⟨by decide, by decide, by decide⟩

/-- C2: in edit mode with stored id 7, submission issues `updateProduto`
with the product's `id` field overwritten to 7, whatever `id` value the
form's own field values held. -/
theorem c2_edit_submit_uses_stored_id (st : CadastroState)
    (hedit : st.isEditing = true) (hid : st.produtoId = .fin 7) :
    onSubmitServiceCall st =
      .updateProduto (setProp st.produtoForm "id" (.num (.fin 7))) ∧
    lookupValue (setProp st.produtoForm "id" (.num (.fin 7))) "id" =
      some (.num (.fin 7)) := by
  constructor
  · unfold onSubmitServiceCall
    rw [hedit, hid]
    simp
  · exact lookupValue_setProp_self st.produtoForm "id" (.num (.fin 7))

theorem c2_edit_submit_uses_stored_id_witness :
    onSubmitServiceCall
        { produtoForm := [("id", JSValue.str "999"), ("nome", JSValue.str "TV")],
          produtoId := .fin 7, isEditing := true } =
      .updateProduto
        (setProp [("id", JSValue.str "999"), ("nome", JSValue.str "TV")] "id"
          (.num (.fin 7))) ∧
    lookupValue
        (setProp [("id", JSValue.str "999"), ("nome", JSValue.str "TV")] "id"
          (.num (.fin 7))) "id" = some (.num (.fin 7)) :=
  c2_edit_submit_uses_stored_id
    { produtoForm := [("id", JSValue.str "999"), ("nome", JSValue.str "TV")],
      produtoId := .fin 7, isEditing := true } rfl rfl

/-- C3 (counterexample): the string `"Infinity"` does not denote a finite
number, yet `isNaN(Number("Infinity"))` is false, so the numeric validator
passes it — refuting "passes iff the value parses to a finite number". -/
theorem c3_numberValidator_passes_infinity :
    numberValidator (.str "Infinity") = none ∧
    (jsStringToNumber "Infinity").isFinite = false := by
  decide

/-- C3 (amended): the numeric validator passes exactly when `Number(s)` is
not NaN — i.e. when `s` converts to a number, finite or infinite — and
otherwise returns the named failure `invalidNumber`. -/
theorem c3_numberValidator_passes_iff_not_nan (s : String) :
    (numberValidator (.str s) = none ↔ (jsStringToNumber s).isNaN = false) ∧
    (numberValidator (.str s) = some .invalidNumber ↔
      (jsStringToNumber s).isNaN = true) := by
  simp only [numberValidator, jsToNumber]
  split <;> rename_i h <;> simp [h]

/-- C4: the date validator returns the named failure `invalidDate` on every
string the `Date` constructor cannot parse, and returns no error only when
the string parses into a valid calendar date. -/
theorem c4_dateValidator_fails_iff_unparseable (s : String) :
    (jsDateParse s = none → dateValidator (.str s) = some .invalidDate) ∧
    (dateValidator (.str s) = none → (jsDateParse s).isSome = true) := by
  simp only [dateValidator, jsNewDate]
  cases h : jsDateParse s <;> simp

theorem c4_dateValidator_fails_iff_unparseable_witness :
    jsDateParse "garantia" = none ∧
    dateValidator (.str "garantia") = some .invalidDate :=
  ⟨by decide, (c4_dateValidator_fails_iff_unparseable "garantia").1 (by decide)⟩

/-- C5: in create mode, submission issues `addProduto` with exactly the
form's field values — the submit path attaches no id of its own (the stored
`produtoId` is never written into the payload; whatever the form's `id`
control held passes through untouched). -/
theorem c5_create_submit_form_value_as_is (st : CadastroState)
    (h : st.isEditing = false) :
    onSubmitServiceCall st = .addProduto st.produtoForm := by
  unfold onSubmitServiceCall
  rw [h]
  simp

theorem c5_create_submit_form_value_as_is_witness :
    onSubmitServiceCall initialCadastroState = .addProduto createForm :=
  c5_create_submit_form_value_as_is initialCadastroState rfl

/-- C6: when the service call fails, the component logs the error and opens
a failure snack-bar whose contents differ from the success notification, it
issues exactly one service call (no retry), and the component state — in
particular the form's field values — is unchanged. -/
theorem c6_failure_handling (st : CadastroState) :
    (onSubmit st false).1 = [onSubmitServiceCall st] ∧
    (onSubmit st false).2.1 =
      [.consoleError,
       .snackBarOpen
         (if st.isEditing then "Erro ao atualizar o produto"
          else "Erro ao cadastrar o produto") "Fechar" 2000] ∧
    (onSubmit st false).2.1 ≠ (onSubmit st true).2.1 ∧
    (onSubmit st false).2.2 = st := by
  refine ⟨rfl, ?_, ?_, rfl⟩
  · simp only [onSubmit, onSubmitEffects]
    cases st.isEditing <;> simp
  · simp only [onSubmit, onSubmitEffects]
    cases st.isEditing <;> decide

/-- C7: the derived-field calculation never changes the purchase date held
by the form: the source builds a fresh `Date` from it and only ever patches
`dataFimGarantia`, so `dataCompra` reads the same before and after. -/
theorem c7_calcular_preserves_dataCompra (form : FormValue) :
    lookupValue (calcularDataFimGarantia form) "dataCompra" =
      lookupValue form "dataCompra" := by
  simp only [calcularDataFimGarantia]
  split
  · split
    · exact lookupValue_patchValue_ne form "dataFimGarantia" "dataCompra" _ (by decide)
    · rfl
  all_goals rfl

/-- C8: during initialization, no supplied identifier means no fetch at all
and an untouched state; a supplied identifier (a non-empty route segment)
switches the component to edit mode, stores `+id`, and fetches that product
exactly once. -/
theorem c8_checkEditMode_fetch_behavior (st : CadastroState)
    (svc : JSNum → Option FormValue) (s : String) (hs : s ≠ "") :
    (checkEditMode st none svc).2 = [] ∧
    (checkEditMode st none svc).1 = st ∧
    (checkEditMode st (some s) svc).1.isEditing = true ∧
    (checkEditMode st (some s) svc).1.produtoId = jsStringToNumber s ∧
    (checkEditMode st (some s) svc).2 = [jsStringToNumber s] := by
  refine ⟨rfl, rfl, ?_, ?_, ?_⟩ <;>
    · simp only [checkEditMode]
      rw [if_neg hs]
      cases svc (jsStringToNumber s) <;> simp

theorem c8_checkEditMode_fetch_behavior_witness :
    (checkEditMode initialCadastroState none (fun _ => none)).2 = [] ∧
    (checkEditMode initialCadastroState none (fun _ => none)).1 =
      initialCadastroState ∧
    (checkEditMode initialCadastroState (some "7") (fun _ => none)).1.isEditing =
      true ∧
    (checkEditMode initialCadastroState (some "7") (fun _ => none)).1.produtoId =
      jsStringToNumber "7" ∧
    (checkEditMode initialCadastroState (some "7") (fun _ => none)).2 =
      [jsStringToNumber "7"] :=
  c8_checkEditMode_fetch_behavior initialCadastroState (fun _ => none) "7"
    (by decide)

/-- C9: a present, valid purchase date together with a duration equal to the
number 0 makes `if (dataCompra && duracaoMeses)` fail (0 is falsy), so the
calculation performs no update at all and `dataFimGarantia` stays as it
was. -/
theorem c9_zero_duration_performs_no_update (form : FormValue) (d : String)
    (hdc : lookupValue form "dataCompra" = some (.str d))
    (_hd : (jsDateParse d).isSome = true)
    (hdm : lookupValue form "duracaoGarantiaMeses" = some (.num (.fin 0))) :
    calcularDataFimGarantia form = form := by
  simp only [calcularDataFimGarantia]
  rw [hdc, hdm]
  simp [jsTruthy]

theorem c9_zero_duration_performs_no_update_witness :
    calcularDataFimGarantia
        [("id", JSValue.str "2"), ("nome", JSValue.str "Geladeira"),
         ("dataCompra", JSValue.str "2023-05-10"),
         ("duracaoGarantiaMeses", JSValue.num (.fin 0))] =
      [("id", JSValue.str "2"), ("nome", JSValue.str "Geladeira"),
       ("dataCompra", JSValue.str "2023-05-10"),
       ("duracaoGarantiaMeses", JSValue.num (.fin 0))] :=
  c9_zero_duration_performs_no_update _ "2023-05-10" (by decide) (by decide)
    (by decide)

/-- C10: the empty string converts to the number 0, which is not NaN, so the
numeric validator accepts it. -/
theorem c10_numberValidator_accepts_empty_string :
    numberValidator (.str "") = none := by
  decide
